import Mathlib

/-!
Verification of the process-supervision and worker-coordination layer of the
ProductionBackendSample repository.

The definitions below are a shallow embedding of:
- `Source/Database.js` (`CONNECT_DATABASE`, the `isConnected` cache flag,
  the missing-URI throw and the `PROCESS.exit(1)` in the dial `catch`);
- the primary branch of the cluster entry point (the `CONNECT_DATABASE().then`
  fork loop, the `FORK`/`ONLINE`/`EXIT` cluster handlers, the
  `GracefullyShutdownWorkers` function and the four shutdown triggers
  `SIGTERM`/`SIGINT`/`uncaughtException`/`unhandledRejection`);
- the worker branch message handler (`DATABASE_CONNECTED` starts the server,
  `SHUTDOWN` calls `PROCESS.exit(0)` immediately) together with the handlers
  that `START_SERVER` in `Source/Application.js` registers once the listener
  is up (`GracefullyShutdownServer`, the worker-local fault handlers).

The cluster is modelled as a state machine: an event list drives a `step`
function, and `run` folds it from the initial state.  Messages sent by the
primary are queued in per-worker FIFO inboxes and consumed by `deliver`
events, matching Node's per-process sequential message handling.  A worker's
`PROCESS.exit` and the primary's `EXIT` cluster handler (which forks a
replacement) are merged into one transition, since in the source the `EXIT`
handler runs unconditionally for every worker exit.
-/

/-- Messages of the shutdown protocol (`Utilities/Constants.js`):
`DATABASE_CONNECTED` and `SHUTDOWN`, sent primary → worker. -/
inductive Msg
  | DATABASE_CONNECTED
  | SHUTDOWN
  deriving DecidableEq, Repr

/-- Outcome of the underlying mongoose dial attempt. -/
inductive DialResult
  | success
  | failure
  deriving DecidableEq, Repr

/-- Observable outcome of one `CONNECT_DATABASE()` call:
the early cached return, a resolved promise after a successful dial,
a rejected promise (thrown before the `try`, when `MongoDB_URI` is unset),
or a process exit performed inside the `catch`. -/
inductive ConnectOutcome
  | alreadyConnected
  | resolved
  | rejected
  | exitedProcess (code : Nat)
  deriving DecidableEq, Repr

/-- Module-level state of `Source/Database.js`: the `isConnected` flag and a
count of how many times the underlying `MONGOOSE.connect` dial was invoked. -/
structure DBState where
  isConnected : Bool
  dialCount : Nat
  deriving DecidableEq, Repr

/-- Embedding of `CONNECT_DATABASE` from `Source/Database.js`:
if `isConnected`, log and return (no dial); if `MongoDB_URI` is not set,
throw (the returned promise rejects); otherwise dial once — on success set
`isConnected := true` and resolve, on failure set `isConnected := false`
and call `PROCESS.exit(1)`. -/
def CONNECT_DATABASE (uriSet : Bool) (dial : DialResult) (s : DBState) :
    DBState × ConnectOutcome :=
  if s.isConnected then
    (s, ConnectOutcome.alreadyConnected)
  else if uriSet = false then
    (s, ConnectOutcome.rejected)
  else
    match dial with
    | DialResult.success =>
        ({ isConnected := true, dialCount := s.dialCount + 1 }, ConnectOutcome.resolved)
    | DialResult.failure =>
        ({ isConnected := false, dialCount := s.dialCount + 1 }, ConnectOutcome.exitedProcess 1)

/-- A sequence of `CONNECT_DATABASE` calls, threading the module state;
each list entry supplies that call's environment (`MongoDB_URI` set?) and the
dial outcome the driver would produce if the call dials. -/
def runConnectCalls (calls : List (Bool × DialResult)) (s : DBState) : DBState :=
  calls.foldl (fun st c => (CONNECT_DATABASE c.1 c.2 st).1) s

/-- Phase of a live worker process: `waiting` = forked/online but the
`DATABASE_CONNECTED` message has not been handled yet (no listener);
`serving` = `START_SERVER` ran, the listener is open and the worker-local
fault handlers are registered. -/
inductive WPhase
  | waiting
  | serving
  deriving DecidableEq, Repr

/-- A live worker as seen by the primary: its pid, whether its IPC channel is
connected (`worker.isConnected()`), its phase, and the FIFO queue of messages
sent by the primary that it has not yet handled. -/
structure WorkerProc where
  pid : Nat
  connected : Bool
  phase : WPhase
  inbox : List Msg
  deriving DecidableEq, Repr

/-- Whether a worker in the given phase has opened its listener: true exactly
in the `serving` phase, since `START_SERVER` is what opens the listener. -/
def listenerOpen (phase : WPhase) : Bool :=
  match phase with
  | WPhase.serving => true
  | WPhase.waiting => false

/-- Record of a worker process that has exited: its pid, the exit code,
whether `Server.close` completed before the exit (a graceful drain), and
whether the worker had ever opened its listener. -/
structure ExitedWorker where
  pid : Nat
  exitCode : Nat
  drained : Bool
  openedListener : Bool
  deriving DecidableEq, Repr

/-- State of the primary process and its fleet.
`ForkedWorkers` is the pid array pushed to by the `FORK` handler;
`exitTimers` holds the pending `setTimeout` calls made by
`GracefullyShutdownWorkers` as (delay in ms, exit code) pairs;
`primaryExited` is the code the primary process terminated with, if any. -/
structure Cluster where
  dbConnected : Bool
  ForkedWorkers : List Nat
  liveWorkers : List WorkerProc
  exitedWorkers : List ExitedWorker
  broadcastRounds : Nat
  exitTimers : List (Nat × Nat)
  primaryExited : Option Nat
  nextPid : Nat
  deriving DecidableEq, Repr

/-- Initial primary state: nothing forked, database not yet connected. -/
def initCluster : Cluster :=
  { dbConnected := false
    ForkedWorkers := []
    liveWorkers := []
    exitedWorkers := []
    broadcastRounds := 0
    exitTimers := []
    primaryExited := none
    nextPid := 1 }

/-- One `CLUSTER.fork()` call together with the `FORK` event handler it
triggers: a fresh worker process appears and its pid is pushed onto
`ForkedWorkers` (`ForkedWorkers.push(worker.process.pid)`). -/
def forkWorker (s : Cluster) : Cluster :=
  { s with
    liveWorkers := s.liveWorkers ++ [⟨s.nextPid, true, WPhase.waiting, []⟩]
    ForkedWorkers := s.ForkedWorkers ++ [s.nextPid]
    nextPid := s.nextPid + 1 }

/-- The fork loop `for (let i = 0; i < totalCPUs; i++) CLUSTER.fork()`. -/
def forkN : Nat → Cluster → Cluster
  | 0, s => s
  | n + 1, s => forkN n (forkWorker s)

/-- Append a message to the inbox of the live worker with the given pid
(`worker.send(...)`); no-op when no such worker is live. -/
def sendToWorker (pid : Nat) (m : Msg) (ws : List WorkerProc) : List WorkerProc :=
  ws.map (fun w => if w.pid = pid then { w with inbox := w.inbox ++ [m] } else w)

/-- The `ONLINE` cluster handler: if the worker's pid is in `ForkedWorkers`
(`ForkedWorkers.includes(worker.process.pid)`), send it `DATABASE_CONNECTED`. -/
def onWorkerOnline (pid : Nat) (s : Cluster) : Cluster :=
  if s.ForkedWorkers.contains pid then
    { s with liveWorkers := sendToWorker pid Msg.DATABASE_CONNECTED s.liveWorkers }
  else
    s

/-- Remove the worker with the given pid from the live set. -/
def removeWorker (pid : Nat) (ws : List WorkerProc) : List WorkerProc :=
  ws.filter (fun w => w.pid ≠ pid)

/-- A worker process exit together with the primary's `EXIT` cluster handler:
the worker leaves the live set, its exit is recorded, and the handler forks a
replacement unconditionally (`CLUSTER.fork()` with no guard). -/
def onWorkerExit (pid code : Nat) (drained opened : Bool) (s : Cluster) : Cluster :=
  forkWorker
    { s with
      liveWorkers := removeWorker pid s.liveWorkers
      exitedWorkers := s.exitedWorkers ++ [⟨pid, code, drained, opened⟩] }

/-- Embedding of `GracefullyShutdownServer` from `Source/Application.js`, as
invoked by a serving worker's local fault handlers:
`Server.close(() => PROCESS.exit(exitCode))` — the listener is closed, then
the worker exits with the given code, and the primary's `EXIT` handler runs. -/
def GracefullyShutdownServer (pid exitCode : Nat) (s : Cluster) : Cluster :=
  onWorkerExit pid exitCode true true s

/-- A worker handles the head of its message inbox
(the worker branch `PROCESS.on(MESSAGE, ...)` handler, registered first):
`DATABASE_CONNECTED` runs `START_SERVER()` (the worker starts serving);
`SHUTDOWN` logs and calls `PROCESS.exit(0)` immediately — this first-registered
handler exits the process before the drain handler registered later by
`START_SERVER` can run, so no `Server.close` happens on this path. -/
def deliverMsg (pid : Nat) (s : Cluster) : Cluster :=
  match s.liveWorkers.find? (fun w => w.pid = pid) with
  | none => s
  | some w =>
    match w.inbox with
    | [] => s
    | m :: rest =>
      match m with
      | Msg.DATABASE_CONNECTED =>
          { s with
            liveWorkers := s.liveWorkers.map (fun v =>
              if v.pid = pid then { v with phase := WPhase.serving, inbox := rest } else v) }
      | Msg.SHUTDOWN =>
          onWorkerExit pid 0 false (listenerOpen w.phase) s

/-- A worker-local uncaught exception or unhandled rejection.  The handlers
registered by `START_SERVER` call `GracefullyShutdownServer(1)`; a worker that
has not run `START_SERVER` yet has no such handlers, so the event is only
modelled for serving workers. -/
def workerLocalFault (pid : Nat) (s : Cluster) : Cluster :=
  match s.liveWorkers.find? (fun w => w.pid = pid) with
  | none => s
  | some w =>
    match w.phase with
    | WPhase.waiting => s
    | WPhase.serving => GracefullyShutdownServer pid 1 s

/-- Embedding of `GracefullyShutdownWorkers(signal, exitCode = 0)`:
iterate over `CLUSTER.workers` and send `SHUTDOWN` to each worker whose IPC
channel is still connected (`worker.isConnected()`), then
`setTimeout(() => PROCESS.exit(exitCode), 10000)`.  There is no guard against
running the body more than once. -/
def GracefullyShutdownWorkers (exitCode : Nat) (s : Cluster) : Cluster :=
  { s with
    liveWorkers := s.liveWorkers.map (fun w =>
      if w.connected then { w with inbox := w.inbox ++ [Msg.SHUTDOWN] } else w)
    broadcastRounds := s.broadcastRounds + 1
    exitTimers := s.exitTimers ++ [(10000, exitCode)] }

/-- The oldest pending `setTimeout` from `GracefullyShutdownWorkers` fires:
`PROCESS.exit(exitCode)` terminates the primary with the stored code,
regardless of whether any worker confirmed termination. -/
def fireExitTimer (s : Cluster) : Cluster :=
  match s.exitTimers with
  | [] => s
  | (_, code) :: rest =>
      { s with exitTimers := rest, primaryExited := some code }

/-- Events driving the cluster model. -/
inductive Ev
  | dbResolve
  | workerOnline (pid : Nat)
  | deliver (pid : Nat)
  | workerFault (pid : Nat)
  | sigterm
  | sigint
  | primaryUncaught
  | primaryRejection
  | timerExpire
  deriving DecidableEq, Repr

/-- Exit code wired to each primary shutdown trigger by the source's handler
registrations: `SIGTERM` and `SIGINT` call `GracefullyShutdownWorkers(signal)`
with the default exit code 0, while the `uncaughtException` and
`unhandledRejection` handlers pass exit code 1. -/
def triggerCode : Ev → Option Nat
  | Ev.sigterm => some 0
  | Ev.sigint => some 0
  | Ev.primaryUncaught => some 1
  | Ev.primaryRejection => some 1
  | _ => none

/-- One step of the cluster model.  `totalCPUs` is the logical CPU count the
fork loop uses.  Once the primary process has exited no further event has any
effect.  `dbResolve` is the one-shot resolution of the primary's
`CONNECT_DATABASE()` promise, whose `then` callback runs the fork loop. -/
def step (totalCPUs : Nat) (s : Cluster) (e : Ev) : Cluster :=
  if s.primaryExited.isSome then s else
  match e with
  | Ev.dbResolve =>
      if s.dbConnected then s else forkN totalCPUs { s with dbConnected := true }
  | Ev.workerOnline pid => onWorkerOnline pid s
  | Ev.deliver pid => deliverMsg pid s
  | Ev.workerFault pid => workerLocalFault pid s
  | Ev.sigterm => GracefullyShutdownWorkers 0 s
  | Ev.sigint => GracefullyShutdownWorkers 0 s
  | Ev.primaryUncaught => GracefullyShutdownWorkers 1 s
  | Ev.primaryRejection => GracefullyShutdownWorkers 1 s
  | Ev.timerExpire => fireExitTimer s

/-- Run the cluster model over a list of events. -/
def run (totalCPUs : Nat) (s : Cluster) (es : List Ev) : Cluster :=
  es.foldl (step totalCPUs) s

/-- Startup of the primary process: one `CONNECT_DATABASE()` call from a fresh
database state; on a resolved promise the `then` callback forks `totalCPUs`
workers; on a rejected promise the `catch` callback only logs; a
`PROCESS.exit` inside `CONNECT_DATABASE` terminates the primary before any
fork.  Returns the resulting cluster state, the database state, and the exit
code the primary process terminated with during startup, if any. -/
def primaryStart (uriSet : Bool) (dial : DialResult) (totalCPUs : Nat) :
    Cluster × DBState × Option Nat :=
  match CONNECT_DATABASE uriSet dial ⟨false, 0⟩ with
  | (db, ConnectOutcome.alreadyConnected) =>
      (forkN totalCPUs { initCluster with dbConnected := true }, db, none)
  | (db, ConnectOutcome.resolved) =>
      (forkN totalCPUs { initCluster with dbConnected := true }, db, none)
  | (db, ConnectOutcome.rejected) => (initCluster, db, none)
  | (db, ConnectOutcome.exitedProcess c) => (initCluster, db, some c)

lemma forkN_liveWorkers_length (n : Nat) (s : Cluster) :
    (forkN n s).liveWorkers.length = s.liveWorkers.length + n := by
  induction n generalizing s with
  | zero => rfl
  | succ k ih =>
      show (forkN k (forkWorker s)).liveWorkers.length = _
      rw [ih]
      simp [forkWorker]
      omega

lemma forkN_ForkedWorkers_length (n : Nat) (s : Cluster) :
    (forkN n s).ForkedWorkers.length = s.ForkedWorkers.length + n := by
  induction n generalizing s with
  | zero => rfl
  | succ k ih =>
      show (forkN k (forkWorker s)).ForkedWorkers.length = _
      rw [ih]
      simp [forkWorker]
      omega

/-- C5: the claim asserts that every failure of `CONNECT_DATABASE` terminates
the Primary with exit code 1.  That fails when `MongoDB_URI` is unset: the
function throws before the `try`, the promise rejects, and the Primary's
`.catch` only logs — zero workers are forked but the process keeps running. -/
theorem C5_counterexample :
    (CONNECT_DATABASE false DialResult.success ⟨false, 0⟩).2 = ConnectOutcome.rejected ∧
    (primaryStart false DialResult.success 4).1.liveWorkers.length = 0 ∧
    (primaryStart false DialResult.success 4).2.2 = none := by
  decide

/-- C5 (amended): when the `CONNECT_DATABASE()` promise resolves, the Primary
forks exactly `totalCPUs` workers and keeps running; when the mongoose dial
fails, zero workers are forked and the process exits with code 1 (inside the
`catch` of `CONNECT_DATABASE`); but when the failure is a missing
`MongoDB_URI`, zero workers are forked and the Primary does not exit — the
rejection is only logged. -/
theorem C5_amended_theorem (n : Nat) (d : DialResult) :
    ((primaryStart true DialResult.success n).1.liveWorkers.length = n ∧
     (primaryStart true DialResult.success n).1.ForkedWorkers.length = n ∧
     (primaryStart true DialResult.success n).2.2 = none) ∧
    ((primaryStart true DialResult.failure n).1.liveWorkers.length = 0 ∧
     (primaryStart true DialResult.failure n).2.2 = some 1) ∧
    ((primaryStart false d n).1.liveWorkers.length = 0 ∧
     (primaryStart false d n).2.2 = none) := by
  refine ⟨⟨?_, ?_, ?_⟩, ⟨?_, ?_⟩, ⟨?_, ?_⟩⟩ <;>
    simp [primaryStart, CONNECT_DATABASE, forkN_liveWorkers_length,
      forkN_ForkedWorkers_length, initCluster]

/-- C7: `CONNECT_DATABASE` is idempotent — called on a state that is already
connected it returns at once with the cached success, leaving the module state
(including the count of underlying mongoose dials) unchanged, and any further
sequence of calls also leaves the state unchanged, so the driver is dialed at
most once after the first success. -/
theorem C7_theorem (uriSet : Bool) (dial : DialResult) (s : DBState)
    (calls : List (Bool × DialResult)) (h : s.isConnected = true) :
    CONNECT_DATABASE uriSet dial s = (s, ConnectOutcome.alreadyConnected) ∧
    runConnectCalls calls s = s ∧
    (runConnectCalls calls s).dialCount = s.dialCount := by
  have hstable : runConnectCalls calls s = s := by
    induction calls with
    | nil => rfl
    | cons c cs ih =>
        have h1 : (CONNECT_DATABASE c.1 c.2 s).1 = s := by
          simp [CONNECT_DATABASE, h]
        show runConnectCalls cs (CONNECT_DATABASE c.1 c.2 s).1 = s
        rw [h1]
        exact ih
    -- termination of the fold preserves the connected state verbatim
  exact ⟨by simp [CONNECT_DATABASE, h], hstable, by rw [hstable]⟩

theorem C7_witness :
    CONNECT_DATABASE true DialResult.success ⟨true, 1⟩ =
      (⟨true, 1⟩, ConnectOutcome.alreadyConnected) ∧
    runConnectCalls [(true, DialResult.success), (true, DialResult.failure), (false, DialResult.success)] ⟨true, 1⟩ = ⟨true, 1⟩ :=
  ⟨(C7_theorem true DialResult.success ⟨true, 1⟩
      [(true, DialResult.success), (true, DialResult.failure), (false, DialResult.success)] rfl).1,
   (C7_theorem true DialResult.success ⟨true, 1⟩
      [(true, DialResult.success), (true, DialResult.failure), (false, DialResult.success)] rfl).2.1⟩

/-- Trace for C1: one worker is forked after the database resolves, brought
online and served the readiness message, then the Primary receives `SIGTERM`
(a ShutdownRequest goes in flight) and the worker handles the resulting
`SHUTDOWN` message and exits. -/
def c1Trace : List Ev :=
  [Ev.dbResolve, Ev.workerOnline 1, Ev.deliver 1, Ev.sigterm, Ev.deliver 1]

/-- C1: the claim asserts that a worker exit during an in-flight
ShutdownRequest forks no replacement.  In the trace `c1Trace` the worker exits
while the shutdown timer is pending, yet a replacement worker (pid 2) is live
afterwards: the `EXIT` handler calls `CLUSTER.fork()` unconditionally. -/
theorem C1_counterexample :
    (run 1 initCluster c1Trace).exitTimers = [(10000, 0)] ∧
    (run 1 initCluster c1Trace).exitedWorkers = [⟨1, 0, false, true⟩] ∧
    (run 1 initCluster c1Trace).liveWorkers = [⟨2, true, WPhase.waiting, []⟩] := by
  decide

/-- C1 (amended): on every worker-exit event observed by the Primary, exactly
one replacement worker is forked, regardless of whether a ShutdownRequest is
in flight — the re-fork decision of the code is constantly true. -/
theorem C1_amended_theorem (n : Nat) (s : Cluster) (w : WorkerProc)
    (hrun : s.primaryExited = none)
    (hw : s.liveWorkers.find? (fun v => v.pid = w.pid) = some w)
    (hinbox : w.inbox.head? = some Msg.SHUTDOWN) :
    (step n s (Ev.deliver w.pid)).exitedWorkers.length = s.exitedWorkers.length + 1 ∧
    (step n s (Ev.deliver w.pid)).ForkedWorkers = s.ForkedWorkers ++ [s.nextPid] ∧
    (step n s (Ev.deliver w.pid)).liveWorkers =
      removeWorker w.pid s.liveWorkers ++ [⟨s.nextPid, true, WPhase.waiting, []⟩] := by
  cases hww : w.inbox with
  | nil => rw [hww] at hinbox; cases hinbox
  | cons m rest =>
      rw [hww] at hinbox
      simp only [List.head?_cons, Option.some.injEq] at hinbox
      subst hinbox
      simp [step, hrun, deliverMsg, hw, hww, onWorkerExit, forkWorker]

theorem C1_witness :
    (step 1 (run 1 initCluster [Ev.dbResolve, Ev.workerOnline 1, Ev.deliver 1, Ev.sigterm])
        (Ev.deliver 1)).ForkedWorkers =
      (run 1 initCluster [Ev.dbResolve, Ev.workerOnline 1, Ev.deliver 1, Ev.sigterm]).ForkedWorkers ++
        [(run 1 initCluster [Ev.dbResolve, Ev.workerOnline 1, Ev.deliver 1, Ev.sigterm]).nextPid] :=
  (C1_amended_theorem 1
      (run 1 initCluster [Ev.dbResolve, Ev.workerOnline 1, Ev.deliver 1, Ev.sigterm])
      ⟨1, true, WPhase.serving, [Msg.SHUTDOWN]⟩ (by decide) (by decide) (by decide)).2.1

/-- C2: the claim asserts at most one ShutdownRequest can be in flight.  But
`GracefullyShutdownWorkers` has no guard: after `SIGTERM` followed by an
uncaught exception in the Primary, two broadcast rounds have run and two exit
timers are pending. -/
theorem C2_counterexample :
    (run 1 initCluster [Ev.sigterm, Ev.primaryUncaught]).broadcastRounds = 2 ∧
    (run 1 initCluster [Ev.sigterm, Ev.primaryUncaught]).exitTimers =
      [(10000, 0), (10000, 1)] := by
  decide

/-- C2 (amended): the shutdown path is unguarded — every shutdown trigger that
fires before the Primary process has exited performs its own full `SHUTDOWN`
broadcast round and starts its own 10-second exit timer, so n triggers produce
n broadcast rounds and n pending timers. -/
theorem C2_amended_theorem (n : Nat) (s : Cluster) (e : Ev) (c : Nat)
    (hrun : s.primaryExited = none) (hc : triggerCode e = some c) :
    (step n s e).broadcastRounds = s.broadcastRounds + 1 ∧
    (step n s e).exitTimers = s.exitTimers ++ [(10000, c)] := by
  cases e with
  | sigterm =>
      simp only [triggerCode, Option.some.injEq] at hc
      subst hc
      simp [step, hrun, GracefullyShutdownWorkers]
  | sigint =>
      simp only [triggerCode, Option.some.injEq] at hc
      subst hc
      simp [step, hrun, GracefullyShutdownWorkers]
  | primaryUncaught =>
      simp only [triggerCode, Option.some.injEq] at hc
      subst hc
      simp [step, hrun, GracefullyShutdownWorkers]
  | primaryRejection =>
      simp only [triggerCode, Option.some.injEq] at hc
      subst hc
      simp [step, hrun, GracefullyShutdownWorkers]
  | dbResolve => simp [triggerCode] at hc
  | workerOnline pid => simp [triggerCode] at hc
  | deliver pid => simp [triggerCode] at hc
  | workerFault pid => simp [triggerCode] at hc
  | timerExpire => simp [triggerCode] at hc

theorem C2_witness :
    (step 1 (run 1 initCluster [Ev.sigterm]) Ev.primaryUncaught).broadcastRounds =
      (run 1 initCluster [Ev.sigterm]).broadcastRounds + 1 :=
  (C2_amended_theorem 1 (run 1 initCluster [Ev.sigterm]) Ev.primaryUncaught 1
    (by decide) rfl).1

/-- Trace for C4: one worker reaches the Serving state, the Primary's
uncaught-exception handler triggers a fault shutdown (exit code 1), and the
worker handles the resulting `SHUTDOWN` message. -/
def c4Trace : List Ev :=
  [Ev.dbResolve, Ev.workerOnline 1, Ev.deliver 1, Ev.primaryUncaught, Ev.deliver 1]

/-- C4: the claim asserts a Serving worker drains on `SHUTDOWN` and exits with
code 1 when the shutdown came from the Primary's fault handling.  In `c4Trace`
the shutdown is fault-triggered (pending timer carries exit code 1), yet the
worker's exit record shows exit code 0 and no drain (`Server.close` never ran):
the first-registered message handler calls `PROCESS.exit(0)` immediately. -/
theorem C4_counterexample :
    (run 1 initCluster c4Trace).exitTimers = [(10000, 1)] ∧
    (run 1 initCluster c4Trace).exitedWorkers = [⟨1, 0, false, true⟩] := by
  decide

/-- C4 (amended): a Serving worker that handles a `SHUTDOWN` message exits
immediately with code 0, whatever the Primary's shutdown reason was, and
without a graceful drain — the worker-branch message handler registered first
calls `PROCESS.exit(0)` before the drain handler from `START_SERVER` can run. -/
theorem C4_amended_theorem (n : Nat) (s : Cluster) (w : WorkerProc)
    (hrun : s.primaryExited = none)
    (hw : s.liveWorkers.find? (fun v => v.pid = w.pid) = some w)
    (hphase : w.phase = WPhase.serving)
    (hinbox : w.inbox.head? = some Msg.SHUTDOWN) :
    (step n s (Ev.deliver w.pid)).exitedWorkers =
      s.exitedWorkers ++ [⟨w.pid, 0, false, true⟩] := by
  cases hww : w.inbox with
  | nil => rw [hww] at hinbox; cases hinbox
  | cons m rest =>
      rw [hww] at hinbox
      simp only [List.head?_cons, Option.some.injEq] at hinbox
      subst hinbox
      simp [step, hrun, deliverMsg, hw, hww, hphase, listenerOpen, onWorkerExit, forkWorker]

theorem C4_witness :
    (step 1 (run 1 initCluster [Ev.dbResolve, Ev.workerOnline 1, Ev.deliver 1, Ev.primaryUncaught])
        (Ev.deliver 1)).exitedWorkers =
      (run 1 initCluster [Ev.dbResolve, Ev.workerOnline 1, Ev.deliver 1, Ev.primaryUncaught]).exitedWorkers ++
        [⟨1, 0, false, true⟩] :=
  C4_amended_theorem 1
    (run 1 initCluster [Ev.dbResolve, Ev.workerOnline 1, Ev.deliver 1, Ev.primaryUncaught])
    ⟨1, true, WPhase.serving, [Msg.SHUTDOWN]⟩ (by decide) (by decide) rfl (by decide)

/-- C9: a worker-local uncaught exception or unhandled rejection in a Serving
worker makes the worker itself run `GracefullyShutdownServer(1)`: the listener
is closed (`drained = true`), the worker exits with code 1, no `SHUTDOWN`
message from the Primary is involved, and the Primary's `EXIT` handler then
forks exactly one replacement worker. -/
theorem C9_theorem (n : Nat) (s : Cluster) (w : WorkerProc)
    (hrun : s.primaryExited = none)
    (hw : s.liveWorkers.find? (fun v => v.pid = w.pid) = some w)
    (hphase : w.phase = WPhase.serving) :
    (step n s (Ev.workerFault w.pid)).exitedWorkers =
      s.exitedWorkers ++ [⟨w.pid, 1, true, true⟩] ∧
    (step n s (Ev.workerFault w.pid)).ForkedWorkers = s.ForkedWorkers ++ [s.nextPid] ∧
    (step n s (Ev.workerFault w.pid)).liveWorkers =
      removeWorker w.pid s.liveWorkers ++ [⟨s.nextPid, true, WPhase.waiting, []⟩] := by
  simp [step, hrun, workerLocalFault, hw, hphase, GracefullyShutdownServer,
    onWorkerExit, forkWorker]

theorem C9_witness :
    (step 1 (run 1 initCluster [Ev.dbResolve, Ev.workerOnline 1, Ev.deliver 1])
        (Ev.workerFault 1)).exitedWorkers =
      (run 1 initCluster [Ev.dbResolve, Ev.workerOnline 1, Ev.deliver 1]).exitedWorkers ++
        [⟨1, 1, true, true⟩] :=
  (C9_theorem 1 (run 1 initCluster [Ev.dbResolve, Ev.workerOnline 1, Ev.deliver 1])
    ⟨1, true, WPhase.serving, []⟩ (by decide) (by decide) rfl).1


lemma forkN_dbConnected (k : Nat) (s : Cluster) :
    (forkN k s).dbConnected = s.dbConnected := by
  induction k generalizing s with
  | zero => rfl
  | succ m ih =>
      show (forkN m (forkWorker s)).dbConnected = _
      rw [ih]
      rfl

lemma onWorkerOnline_dbConnected (pid : Nat) (s : Cluster) :
    (onWorkerOnline pid s).dbConnected = s.dbConnected := by
  unfold onWorkerOnline
  split <;> rfl

lemma deliverMsg_dbConnected (pid : Nat) (s : Cluster) :
    (deliverMsg pid s).dbConnected = s.dbConnected := by
  unfold deliverMsg
  split
  · rfl
  · split
    · rfl
    · split <;> rfl

lemma workerLocalFault_dbConnected (pid : Nat) (s : Cluster) :
    (workerLocalFault pid s).dbConnected = s.dbConnected := by
  unfold workerLocalFault
  split
  · rfl
  · split <;> rfl

lemma fireExitTimer_dbConnected (s : Cluster) :
    (fireExitTimer s).dbConnected = s.dbConnected := by
  unfold fireExitTimer
  split <;> rfl

lemma step_dbConnected_mono (n : Nat) (s : Cluster) (e : Ev)
    (h : s.dbConnected = true) : (step n s e).dbConnected = true := by
  cases hp : s.primaryExited with
  | some c => simp [step, hp, h]
  | none =>
      cases e <;>
        simp [step, hp, h, onWorkerOnline_dbConnected, deliverMsg_dbConnected,
          workerLocalFault_dbConnected, fireExitTimer_dbConnected,
          GracefullyShutdownWorkers, forkN_dbConnected]

/-- Invariant used for C3: before the primary observes the resolved database
connection, no worker process exists and no pid has ever been forked. -/
def NoWorkersBeforeReady (s : Cluster) : Prop :=
  (s.liveWorkers = [] ∧ s.ForkedWorkers = []) ∨ s.dbConnected = true

lemma step_preserves_NoWorkersBeforeReady (n : Nat) (s : Cluster) (e : Ev)
    (h : NoWorkersBeforeReady s) : NoWorkersBeforeReady (step n s e) := by
  rcases h with ⟨hl, hf⟩ | hdb
  · by_cases hdb : s.dbConnected = true
    · exact Or.inr (step_dbConnected_mono n s e hdb)
    · have hdb2 : s.dbConnected = false := by
        cases hb : s.dbConnected
        · rfl
        · exact absurd hb hdb
      cases hp : s.primaryExited with
      | some c => exact Or.inl (by constructor <;> simp [step, hp, hl, hf])
      | none =>
          cases e with
          | dbResolve => exact Or.inr (by simp [step, hp, hdb2, forkN_dbConnected])
          | workerOnline pid =>
              exact Or.inl (by constructor <;>
                simp [step, hp, onWorkerOnline, hl, hf, sendToWorker])
          | deliver pid =>
              exact Or.inl (by constructor <;> simp [step, hp, deliverMsg, hl, hf])
          | workerFault pid =>
              exact Or.inl (by constructor <;> simp [step, hp, workerLocalFault, hl, hf])
          | sigterm =>
              exact Or.inl (by constructor <;>
                simp [step, hp, GracefullyShutdownWorkers, hl, hf])
          | sigint =>
              exact Or.inl (by constructor <;>
                simp [step, hp, GracefullyShutdownWorkers, hl, hf])
          | primaryUncaught =>
              exact Or.inl (by constructor <;>
                simp [step, hp, GracefullyShutdownWorkers, hl, hf])
          | primaryRejection =>
              exact Or.inl (by constructor <;>
                simp [step, hp, GracefullyShutdownWorkers, hl, hf])
          | timerExpire =>
              refine Or.inl ?_
              have hstep : step n s Ev.timerExpire = fireExitTimer s := by
                simp [step, hp]
              rw [hstep]
              unfold fireExitTimer
              split
              · exact ⟨hl, hf⟩
              · exact ⟨hl, hf⟩
  · exact Or.inr (step_dbConnected_mono n s e hdb)

lemma run_preserves_NoWorkersBeforeReady (n : Nat) (es : List Ev) (s : Cluster)
    (h : NoWorkersBeforeReady s) : NoWorkersBeforeReady (run n s es) := by
  induction es generalizing s with
  | nil => exact h
  | cons e es ih => exact ih (step n s e) (step_preserves_NoWorkersBeforeReady n s e h)

/-- C3: in every execution of the model, a worker in the Serving state (its
listener started by `START_SERVER`) can only exist once the primary's database
bootstrap succeeded: the readiness flag of the run is true whenever any live
worker exists in the Serving state.  Workers only ever reach `serving` by
handling the `DATABASE_CONNECTED` message, which is only sent after
`dbResolve`. -/
theorem C3_theorem (n : Nat) (es : List Ev) (w : WorkerProc)
    (hmem : w ∈ (run n initCluster es).liveWorkers)
    (hserving : w.phase = WPhase.serving) :
    (run n initCluster es).dbConnected = true := by
  rcases run_preserves_NoWorkersBeforeReady n es initCluster (Or.inl ⟨rfl, rfl⟩) with
    ⟨hl, _⟩ | hdb
  · rw [hl] at hmem
    cases hmem
  · exact hdb

theorem C3_witness :
    (run 1 initCluster [Ev.dbResolve, Ev.workerOnline 1, Ev.deliver 1]).dbConnected = true :=
  C3_theorem 1 [Ev.dbResolve, Ev.workerOnline 1, Ev.deliver 1]
    ⟨1, true, WPhase.serving, []⟩ (by decide) rfl

/-- Invariant used for C10: every live worker's pid has been recorded in the
`ForkedWorkers` array by the `FORK` handler. -/
def PidsRegistered (s : Cluster) : Prop :=
  ∀ w ∈ s.liveWorkers, w.pid ∈ s.ForkedWorkers

lemma pids_forkWorker (s : Cluster) (h : PidsRegistered s) :
    PidsRegistered (forkWorker s) := by
  intro w hw
  have hw2 : w ∈ s.liveWorkers ++ [⟨s.nextPid, true, WPhase.waiting, []⟩] := hw
  show w.pid ∈ s.ForkedWorkers ++ [s.nextPid]
  rcases List.mem_append.mp hw2 with hmem | hmem
  · exact List.mem_append_left _ (h w hmem)
  · rcases List.mem_singleton.mp hmem with rfl
    exact List.mem_append_right _ (List.mem_singleton.mpr rfl)

lemma pids_forkN (k : Nat) (s : Cluster) (h : PidsRegistered s) :
    PidsRegistered (forkN k s) := by
  induction k generalizing s with
  | zero => exact h
  | succ m ih => exact ih (forkWorker s) (pids_forkWorker s h)

lemma pids_liveMap (s : Cluster) (f : WorkerProc → WorkerProc)
    (hf : ∀ w, (f w).pid = w.pid) (h : PidsRegistered s) :
    PidsRegistered { s with liveWorkers := s.liveWorkers.map f } := by
  intro w hw
  have hw2 : w ∈ s.liveWorkers.map f := hw
  rcases List.mem_map.mp hw2 with ⟨v, hv, hfv⟩
  show w.pid ∈ s.ForkedWorkers
  rw [← hfv, hf v]
  exact h v hv

lemma pids_onWorkerOnline (pid : Nat) (s : Cluster) (h : PidsRegistered s) :
    PidsRegistered (onWorkerOnline pid s) := by
  unfold onWorkerOnline
  split
  · exact pids_liveMap s _ (fun w => by split <;> rfl) h
  · exact h

lemma pids_onWorkerExit (pid code : Nat) (dr op : Bool) (s : Cluster)
    (h : PidsRegistered s) : PidsRegistered (onWorkerExit pid code dr op s) := by
  apply pids_forkWorker
  intro w hw
  have hw2 : w ∈ removeWorker pid s.liveWorkers := hw
  have hw3 : w ∈ s.liveWorkers := List.mem_of_mem_filter hw2
  exact h w hw3

lemma pids_deliverMsg (pid : Nat) (s : Cluster) (h : PidsRegistered s) :
    PidsRegistered (deliverMsg pid s) := by
  unfold deliverMsg
  split
  · exact h
  · split
    · exact h
    · split
      · exact pids_liveMap s _ (fun w => by split <;> rfl) h
      · exact pids_onWorkerExit _ _ _ _ s h

lemma pids_workerLocalFault (pid : Nat) (s : Cluster) (h : PidsRegistered s) :
    PidsRegistered (workerLocalFault pid s) := by
  unfold workerLocalFault
  split
  · exact h
  · split
    · exact h
    · exact pids_onWorkerExit _ _ _ _ s h

lemma pids_GracefullyShutdownWorkers (c : Nat) (s : Cluster) (h : PidsRegistered s) :
    PidsRegistered (GracefullyShutdownWorkers c s) := by
  have hm := pids_liveMap s
    (fun w => if w.connected then { w with inbox := w.inbox ++ [Msg.SHUTDOWN] } else w)
    (fun w => by by_cases hc : w.connected <;> simp [hc]) h
  intro w hw
  exact hm w hw

lemma pids_fireExitTimer (s : Cluster) (h : PidsRegistered s) :
    PidsRegistered (fireExitTimer s) := by
  unfold fireExitTimer
  split
  · exact h
  · intro w hw
    exact h w hw

lemma step_preserves_pids (n : Nat) (s : Cluster) (e : Ev) (h : PidsRegistered s) :
    PidsRegistered (step n s e) := by
  cases hp : s.primaryExited with
  | some c =>
      have hstep : step n s e = s := by simp [step, hp]
      rw [hstep]; exact h
  | none =>
      cases e with
      | dbResolve =>
          have hstep : step n s Ev.dbResolve =
              if s.dbConnected then s else forkN n { s with dbConnected := true } := by
            simp [step, hp]
          rw [hstep]
          split
          · exact h
          · exact pids_forkN n _ (fun w hw => h w hw)
      | workerOnline pid =>
          have hstep : step n s (Ev.workerOnline pid) = onWorkerOnline pid s := by
            simp [step, hp]
          rw [hstep]; exact pids_onWorkerOnline pid s h
      | deliver pid =>
          have hstep : step n s (Ev.deliver pid) = deliverMsg pid s := by
            simp [step, hp]
          rw [hstep]; exact pids_deliverMsg pid s h
      | workerFault pid =>
          have hstep : step n s (Ev.workerFault pid) = workerLocalFault pid s := by
            simp [step, hp]
          rw [hstep]; exact pids_workerLocalFault pid s h
      | sigterm =>
          have hstep : step n s Ev.sigterm = GracefullyShutdownWorkers 0 s := by
            simp [step, hp]
          rw [hstep]; exact pids_GracefullyShutdownWorkers 0 s h
      | sigint =>
          have hstep : step n s Ev.sigint = GracefullyShutdownWorkers 0 s := by
            simp [step, hp]
          rw [hstep]; exact pids_GracefullyShutdownWorkers 0 s h
      | primaryUncaught =>
          have hstep : step n s Ev.primaryUncaught = GracefullyShutdownWorkers 1 s := by
            simp [step, hp]
          rw [hstep]; exact pids_GracefullyShutdownWorkers 1 s h
      | primaryRejection =>
          have hstep : step n s Ev.primaryRejection = GracefullyShutdownWorkers 1 s := by
            simp [step, hp]
          rw [hstep]; exact pids_GracefullyShutdownWorkers 1 s h
      | timerExpire =>
          have hstep : step n s Ev.timerExpire = fireExitTimer s := by
            simp [step, hp]
          rw [hstep]; exact pids_fireExitTimer s h

lemma run_preserves_pids (n : Nat) (es : List Ev) (s : Cluster)
    (h : PidsRegistered s) : PidsRegistered (run n s es) := by
  induction es generalizing s with
  | nil => exact h
  | cons e es ih => exact ih (step n s e) (step_preserves_pids n s e h)

lemma forked_prefix_forkWorker (s : Cluster) :
    s.ForkedWorkers <+: (forkWorker s).ForkedWorkers :=
  ⟨[s.nextPid], rfl⟩

lemma forked_prefix_forkN (k : Nat) (s : Cluster) :
    s.ForkedWorkers <+: (forkN k s).ForkedWorkers := by
  induction k generalizing s with
  | zero => exact List.prefix_refl _
  | succ m ih => exact (forked_prefix_forkWorker s).trans (ih (forkWorker s))

lemma forked_prefix_step (n : Nat) (s : Cluster) (e : Ev) :
    s.ForkedWorkers <+: (step n s e).ForkedWorkers := by
  cases hp : s.primaryExited with
  | some c =>
      have hstep : step n s e = s := by simp [step, hp]
      rw [hstep]
  | none =>
      cases e with
      | dbResolve =>
          have hstep : step n s Ev.dbResolve =
              if s.dbConnected then s else forkN n { s with dbConnected := true } := by
            simp [step, hp]
          rw [hstep]
          split
          · exact List.prefix_refl _
          · exact forked_prefix_forkN n { s with dbConnected := true }
      | workerOnline pid =>
          have hstep : step n s (Ev.workerOnline pid) = onWorkerOnline pid s := by
            simp [step, hp]
          rw [hstep]
          unfold onWorkerOnline
          split <;> exact List.prefix_refl _
      | deliver pid =>
          have hstep : step n s (Ev.deliver pid) = deliverMsg pid s := by
            simp [step, hp]
          rw [hstep]
          unfold deliverMsg
          split
          · exact List.prefix_refl _
          · split
            · exact List.prefix_refl _
            · split
              · exact List.prefix_refl _
              · exact ⟨[s.nextPid], rfl⟩
      | workerFault pid =>
          have hstep : step n s (Ev.workerFault pid) = workerLocalFault pid s := by
            simp [step, hp]
          rw [hstep]
          unfold workerLocalFault
          split
          · exact List.prefix_refl _
          · split
            · exact List.prefix_refl _
            · exact ⟨[s.nextPid], rfl⟩
      | sigterm =>
          have hstep : step n s Ev.sigterm = GracefullyShutdownWorkers 0 s := by
            simp [step, hp]
          rw [hstep]
          exact List.prefix_refl _
      | sigint =>
          have hstep : step n s Ev.sigint = GracefullyShutdownWorkers 0 s := by
            simp [step, hp]
          rw [hstep]
          exact List.prefix_refl _
      | primaryUncaught =>
          have hstep : step n s Ev.primaryUncaught = GracefullyShutdownWorkers 1 s := by
            simp [step, hp]
          rw [hstep]
          exact List.prefix_refl _
      | primaryRejection =>
          have hstep : step n s Ev.primaryRejection = GracefullyShutdownWorkers 1 s := by
            simp [step, hp]
          rw [hstep]
          exact List.prefix_refl _
      | timerExpire =>
          have hstep : step n s Ev.timerExpire = fireExitTimer s := by
            simp [step, hp]
          rw [hstep]
          unfold fireExitTimer
          split <;> exact List.prefix_refl _

lemma forked_prefix_run (n : Nat) (es : List Ev) (s : Cluster) :
    s.ForkedWorkers <+: (run n s es).ForkedWorkers := by
  induction es generalizing s with
  | nil => exact List.prefix_refl _
  | cons e es ih => exact (forked_prefix_step n s e).trans (ih (step n s e))

lemma contains_of_mem {l : List Nat} {a : Nat} (h : a ∈ l) :
    l.contains a = true := by
  induction l with
  | nil => cases h
  | cons b bs ih =>
      rcases List.mem_cons.mp h with rfl | hmem
      · simp
      · simp [hmem]

/-- C10: the `ForkedWorkers` pid list is append-only — along any continuation
of the run it only grows by appending (the current list is a prefix of every
later one), every live worker's pid is a member (the `FORK` handler pushed it
and nothing ever removes it), and consequently the membership test in the
`ONLINE` handler succeeds for every live worker that comes online, so that
worker — including every replacement — is sent `DATABASE_CONNECTED`. -/
theorem C10_theorem (n : Nat) (es es2 : List Ev) (w : WorkerProc)
    (hmem : w ∈ (run n initCluster es).liveWorkers)
    (hrun : (run n initCluster es).primaryExited = none) :
    (run n initCluster es).ForkedWorkers <+:
      (run n (run n initCluster es) es2).ForkedWorkers ∧
    w.pid ∈ (run n initCluster es).ForkedWorkers ∧
    (step n (run n initCluster es) (Ev.workerOnline w.pid)).liveWorkers =
      sendToWorker w.pid Msg.DATABASE_CONNECTED (run n initCluster es).liveWorkers := by
  have hpids := run_preserves_pids n es initCluster (by intro v hv; cases hv)
  have hp := hpids w hmem
  refine ⟨forked_prefix_run n es2 _, hp, ?_⟩
  simp [step, hrun, onWorkerOnline, contains_of_mem hp, hp]

theorem C10_witness :
    ((2 : Nat) ∈ (run 1 initCluster
        [Ev.dbResolve, Ev.workerOnline 1, Ev.deliver 1, Ev.workerFault 1]).ForkedWorkers) ∧
    (step 1 (run 1 initCluster [Ev.dbResolve, Ev.workerOnline 1, Ev.deliver 1, Ev.workerFault 1])
        (Ev.workerOnline 2)).liveWorkers =
      sendToWorker 2 Msg.DATABASE_CONNECTED
        (run 1 initCluster
          [Ev.dbResolve, Ev.workerOnline 1, Ev.deliver 1, Ev.workerFault 1]).liveWorkers :=
  ⟨(C10_theorem 1 [Ev.dbResolve, Ev.workerOnline 1, Ev.deliver 1, Ev.workerFault 1] []
      ⟨2, true, WPhase.waiting, []⟩ (by decide) (by decide)).2.1,
   (C10_theorem 1 [Ev.dbResolve, Ev.workerOnline 1, Ev.deliver 1, Ev.workerFault 1] []
      ⟨2, true, WPhase.waiting, []⟩ (by decide) (by decide)).2.2⟩

/-- C6: the shutdown entry point.  The four triggers dispatch into
`GracefullyShutdownWorkers` with `SIGTERM`/`SIGINT` mapped to exit code 0 and
the two fault channels mapped to exit code 1; the broadcast sends `SHUTDOWN`
exactly to the workers whose IPC channel is still connected (the others keep
their inbox untouched) and schedules a fixed 10000 ms timer carrying the exit
code; when a pending timer fires the primary force-exits with that code, for
every state — regardless of whether any worker confirmed termination. -/
theorem C6_theorem (n : Nat) (s : Cluster) (hrun : s.primaryExited = none) :
    (step n s Ev.sigterm = GracefullyShutdownWorkers 0 s ∧
     step n s Ev.sigint = GracefullyShutdownWorkers 0 s ∧
     step n s Ev.primaryUncaught = GracefullyShutdownWorkers 1 s ∧
     step n s Ev.primaryRejection = GracefullyShutdownWorkers 1 s) ∧
    (∀ c : Nat,
      (GracefullyShutdownWorkers c s).liveWorkers = s.liveWorkers.map (fun w =>
        if w.connected then { w with inbox := w.inbox ++ [Msg.SHUTDOWN] } else w) ∧
      (GracefullyShutdownWorkers c s).exitTimers = s.exitTimers ++ [(10000, c)]) ∧
    (∀ (s2 : Cluster) (c : Nat) (rest : List (Nat × Nat)),
      s2.primaryExited = none → s2.exitTimers = (10000, c) :: rest →
      (step n s2 Ev.timerExpire).primaryExited = some c) := by
  refine ⟨⟨?_, ?_, ?_, ?_⟩, ?_, ?_⟩
  · simp [step, hrun]
  · simp [step, hrun]
  · simp [step, hrun]
  · simp [step, hrun]
  · intro c
    exact ⟨rfl, rfl⟩
  · intro s2 c rest h1 h2
    simp [step, h1, fireExitTimer, h2]

theorem C6_witness :
    (step 1 ⟨true, [1, 2], [⟨1, true, WPhase.serving, []⟩, ⟨2, false, WPhase.serving, []⟩],
        [], 0, [], none, 3⟩ Ev.primaryUncaught).liveWorkers =
      [⟨1, true, WPhase.serving, [Msg.SHUTDOWN]⟩, ⟨2, false, WPhase.serving, []⟩] ∧
    (step 1 ⟨true, [1, 2], [⟨1, true, WPhase.serving, []⟩, ⟨2, false, WPhase.serving, []⟩],
        [], 0, [], none, 3⟩ Ev.primaryUncaught).exitTimers = [(10000, 1)] := by
  have h := C6_theorem 1
    ⟨true, [1, 2], [⟨1, true, WPhase.serving, []⟩, ⟨2, false, WPhase.serving, []⟩],
      [], 0, [], none, 3⟩ rfl
  rw [h.1.2.2.1]
  exact ⟨by decide, by decide⟩

/-- C8: a worker still in `WaitingForReadiness` (phase `waiting`, it has not
handled `DATABASE_CONNECTED`) that handles a `SHUTDOWN` message exits
immediately with exit code 0, its exit record shows the listener was never
opened, and it is no longer among the live workers afterwards. -/
theorem C8_theorem (n : Nat) (s : Cluster) (w : WorkerProc)
    (hrun : s.primaryExited = none)
    (hw : s.liveWorkers.find? (fun v => v.pid = w.pid) = some w)
    (hphase : w.phase = WPhase.waiting)
    (hinbox : w.inbox.head? = some Msg.SHUTDOWN)
    (hfresh : s.nextPid ≠ w.pid) :
    (step n s (Ev.deliver w.pid)).exitedWorkers =
      s.exitedWorkers ++ [⟨w.pid, 0, false, false⟩] ∧
    (step n s (Ev.deliver w.pid)).liveWorkers.find? (fun v => v.pid = w.pid) = none := by
  cases hww : w.inbox with
  | nil => rw [hww] at hinbox; cases hinbox
  | cons m rest =>
      rw [hww] at hinbox
      simp only [List.head?_cons, Option.some.injEq] at hinbox
      subst hinbox
      constructor
      · simp [step, hrun, deliverMsg, hw, hww, hphase, listenerOpen, onWorkerExit, forkWorker]
      · have hstep : step n s (Ev.deliver w.pid) =
            onWorkerExit w.pid 0 false (listenerOpen w.phase) s := by
          simp [step, hrun, deliverMsg, hw, hww]
        rw [hstep]
        unfold onWorkerExit forkWorker
        simp only [List.find?_eq_none, List.mem_append, List.mem_singleton,
          decide_eq_true_eq]
        rintro x (hx | rfl)
        · have hx2 : x ∈ removeWorker w.pid s.liveWorkers := hx
          unfold removeWorker at hx2
          have := List.of_mem_filter hx2
          simp only [decide_eq_true_eq] at this
          exact this
        · intro hcon
          exact hfresh hcon

theorem C8_witness :
    (step 1 (run 1 initCluster [Ev.dbResolve, Ev.sigterm]) (Ev.deliver 1)).exitedWorkers =
      (run 1 initCluster [Ev.dbResolve, Ev.sigterm]).exitedWorkers ++ [⟨1, 0, false, false⟩] ∧
    (step 1 (run 1 initCluster [Ev.dbResolve, Ev.sigterm])
        (Ev.deliver 1)).liveWorkers.find? (fun v => v.pid = 1) = none :=
  C8_theorem 1 (run 1 initCluster [Ev.dbResolve, Ev.sigterm])
    ⟨1, true, WPhase.waiting, [Msg.SHUTDOWN]⟩
    (by decide) (by decide) rfl (by decide) (by decide)
